import Mathlib

/-!
Verification of the paralympics REST API (Flask app: `paralympics/models.py`,
`paralympics/routes.py`, `paralympics/schemas.py`, `paralympics/error_handlers.py`)
against its natural-language specification.

The Python code is shallowly embedded: ORM rows become Lean structures, the
database becomes lists of rows, route handlers become functions from request
data and database state to an HTTP response (and possibly a new state), and
Python exceptions become an explicit `PyExc` error type threaded through
`Except`.

`paralympics/helpers.py` (defining `encode_auth_token`, `decode_auth_token`
and the `token_required` decorator) is imported by `routes.py` but is not part
of the available sources; those operations are modelled from the spec, as
marked in their doc comments.
-/

/-! ## Data model (`paralympics/models.py`) -/

/-- A JSON value, as produced by Flask `jsonify` / dict returns /
Marshmallow `dump`. -/
inductive Json where
  | null : Json
  | str (s : String) : Json
  | num (n : Int) : Json
  | boolean (b : Bool) : Json
  | arr (xs : List Json) : Json
  | obj (kvs : List (String × Json)) : Json

/-- `Region` row (`models.py` lines 11-17): text primary key `NOC`,
required `region`, nullable `notes`.  The `events` relationship is derived
from `Event.NOC` and not stored on the row. -/
structure Region where
  NOC : String
  region : String
  notes : Option String
deriving DecidableEq

/-- `Event` row (`models.py` lines 20-41).  `type` and `end` are Lean
keywords, so the Lean fields are `type_` and `end_`; the column-name view
below (`Event.fieldNames`, `Event.getField`) keeps the SQL names. -/
structure Event where
  id : Int
  type_ : String
  year : Int
  country : String
  host : String
  NOC : String
  start : Option String
  end_ : Option String
  duration : Option Int
  disabilities_included : Option String
  countries : Option Int
  events : Option Int
  sports : Option Int
  participants_m : Option Int
  participants_f : Option Int
  participants : Option Int
  highlights : Option String
deriving DecidableEq

/-- A password hash as stored by werkzeug `generate_password_hash`: a salt
plus a digest derived from the salt and the password.  The digest function is
idealised as collision-free (the real scrypt digest is collision-resistant,
not collision-free); with that idealisation it is modelled concretely as the
pair of its inputs. -/
structure PasswordHash where
  salt : String
  digest : String
deriving DecidableEq

/-- The digest computed by werkzeug from a salt and a plaintext password,
idealised as an injective function of the password for each salt. -/
def hashDigest (salt password : String) : String :=
  salt ++ ":" ++ password

/-- werkzeug `generate_password_hash(password)`: draws a fresh salt (passed
here explicitly, since the embedding is deterministic) and stores
`salt$digest`. -/
def generate_password_hash (salt password : String) : PasswordHash :=
  { salt := salt, digest := hashDigest salt password }

/-- werkzeug `check_password_hash(pwhash, password)`: recomputes the digest
from the stored salt and the candidate password and compares it with the
stored digest. -/
def check_password_hash (pwhash : PasswordHash) (password : String) : Bool :=
  pwhash.digest == hashDigest pwhash.salt password

/-- `User` row (`models.py` lines 44-47): integer primary key `id`, unique
non-null `email`, unique non-null `password_hash`. -/
structure User where
  id : Int
  email : String
  password_hash : PasswordHash
deriving DecidableEq

/-- The columns of the users table declared `unique=True`
(`models.py` lines 46-47). -/
def User.uniqueColumns : List String := ["email", "password_hash"]

/-- `User.set_password` (`models.py` lines 52-53): stores the salted hash of
the password (salt made explicit). -/
def User.set_password (u : User) (salt password : String) : User :=
  { u with password_hash := generate_password_hash salt password }

/-- `User.check_password` (`models.py` lines 55-56). -/
def User.check_password (u : User) (password : String) : Bool :=
  check_password_hash u.password_hash password

/-- The whole persistent store: one list of rows per table. -/
structure DB where
  regions : List Region
  events : List Event
  users : List User
deriving DecidableEq

/-! ## Python exceptions and SQLAlchemy query semantics -/

/-- The exceptions the embedded handlers can raise.  `httpExc c` is a
werkzeug `HTTPException` with status code `c`; the rest are non-HTTP. -/
inductive PyExc where
  /-- werkzeug `HTTPException` with the given status code. -/
  | httpExc (code : Nat) : PyExc
  /-- `sqlalchemy.exc.NoResultFound`, raised by `scalar_one()` on zero rows. -/
  | noResultFound : PyExc
  /-- `sqlalchemy.exc.MultipleResultsFound`, raised by `scalar_one()` and
  `scalar_one_or_none()` on more than one row. -/
  | multipleResultsFound : PyExc
  /-- `sqlalchemy.exc.InvalidRequestError`, raised by `filter_by` when the
  keyword names no mapped column. -/
  | invalidRequestError : PyExc
  /-- `sqlalchemy.exc.IntegrityError`, raised on commit when a NOT NULL or
  UNIQUE constraint is violated. -/
  | integrityError : PyExc
  /-- Python `AttributeError` (e.g. calling a missing method). -/
  | attributeError : PyExc
  /-- marshmallow `ValidationError` carrying its `messages` payload. -/
  | validationError (messages : Json) : PyExc

/-- Whether an exception is a werkzeug `HTTPException`
(`isinstance(e, HTTPException)`). -/
def PyExc.isHTTP : PyExc → Bool
  | .httpExc _ => true
  | _ => false

/-- SQLAlchemy `Result.scalar_one()`: exactly one row or raise. -/
def scalarOne {α : Type} (rows : List α) : Except PyExc α :=
  match rows with
  | [x] => .ok x
  | [] => .error .noResultFound
  | _ => .error .multipleResultsFound

/-- SQLAlchemy `Result.scalar_one_or_none()`: at most one row or raise. -/
def scalarOneOrNone {α : Type} (rows : List α) : Except PyExc (Option α) :=
  match rows with
  | [] => .ok none
  | [x] => .ok (some x)
  | _ => .error .multipleResultsFound

/-! ## HTTP responses and error handlers (`routes.py` lines 207-246,
`error_handlers.py`) -/

/-- An HTTP response body: JSON (content type `application/json`) or the
default werkzeug HTML error page (content type `text/html`). -/
inductive RBody where
  | json (j : Json) : RBody
  | html (s : String) : RBody

/-- An HTTP response. -/
structure Response where
  status : Nat
  body : RBody

/-- werkzeug default reason phrase for the status codes this app can emit. -/
def httpName : Nat → String
  | 400 => "Bad Request"
  | 401 => "Unauthorized"
  | 404 => "Not Found"
  | 409 => "Conflict"
  | 500 => "Internal Server Error"
  | _ => "Unknown Error"

/-- werkzeug default description for the status codes this app can emit. -/
def httpDescription : Nat → String
  | 400 => "The browser (or proxy) sent a request that this server could not understand."
  | 401 => "The server could not verify that you are authorized to access the URL requested. You either supplied the wrong credentials (e.g. a bad password), or your browser does not understand how to supply the credentials required."
  | 404 => "The requested URL was not found on the server. If you entered the URL manually please check your spelling and try again."
  | 409 => "A conflict happened while processing the request. The resource might have been modified while the request was being processed."
  | 500 => "The server encountered an internal error and was unable to complete your request. Either the server is overloaded or there is an error in the application."
  | _ => "Unknown error"

/-- `str(e)` for a werkzeug `HTTPException`: `"<code> <name>: <description>"`. -/
def httpStr (code : Nat) : String :=
  toString code ++ " " ++ httpName code ++ ": " ++ httpDescription code

/-- `HTTPException.get_response()` with the body untouched: the werkzeug
default error page, which is HTML. -/
def defaultHttpResponse (code : Nat) : Response :=
  { status := code, body := .html (httpStr code) }

/-- The JSON error response built by the registered `HTTPException` handler
(`routes.py` lines 227-239): `e.get_response()` with the body replaced by
`{"code": .., "name": .., "description": ..}` and content type set to JSON. -/
def handle_exception (code : Nat) : Response :=
  { status := code
    body := .json (.obj
      [("code", .num code),
       ("name", .str (httpName code)),
       ("description", .str (httpDescription code))]) }

/-- The generic `Exception` handler (`routes.py` lines 207-224).  HTTP errors
are passed through unchanged (Flask then renders the returned exception as
its default response).  For a non-HTTP exception the handler calls
`e.get_response()`, a method plain exceptions do not have, so the handler
itself raises `AttributeError` instead of returning a response. -/
def handle_exception_generic (e : PyExc) : Except PyExc Response :=
  match e with
  | .httpExc code => .ok (defaultHttpResponse code)
  | _ => .error .attributeError

/-- The 404 handler (`routes.py` lines 242-246 and `error_handlers.py`
lines 21-31, identical): `jsonify(error=str(e)), 404`. -/
def resource_not_found (code : Nat) : Response :=
  { status := 404, body := .json (.obj [("error", .str (httpStr code))]) }

/-- The marshmallow `ValidationError` handler (`error_handlers.py`
lines 7-18): returns `error.messages` with status 400. -/
def register_validation_error (messages : Json) : Response :=
  { status := 400, body := .json messages }

/-- Flask error-handler lookup for a raised exception, by specificity: a
handler registered for the exact status code (404) beats the
`HTTPException` class handler; `ValidationError` has its own handler; every
other exception falls to the generic `Exception` handler.  If the chosen
handler itself raises, Flask wraps the failure in an `InternalServerError`
and dispatches that through the same lookup (which selects the
`HTTPException` handler). -/
def handleRaised (e : PyExc) : Response :=
  match e with
  | .httpExc 404 => resource_not_found 404
  | .httpExc code => handle_exception code
  | .validationError messages => register_validation_error messages
  | _ =>
    match handle_exception_generic e with
    | .ok r => r
    | .error _ => handle_exception 500

/-- Finish a route whose handler either returned a 200 JSON value or raised:
a raised exception is dispatched to the error handlers and leaves the
database unchanged (the failed request commits nothing). -/
def runRoute (db : DB) (r : Except PyExc (Response × DB)) : Response × DB :=
  match r with
  | .ok p => p
  | .error e => (handleRaised e, db)

/-! ## Column-name view of `Event` and `filter_by`
(`routes.py` lines 75, 126, 165-167) -/

/-- A value of a mapped column, possibly NULL. -/
inductive ColumnVal where
  | int (n : Option Int) : ColumnVal
  | str (s : Option String) : ColumnVal
deriving DecidableEq

/-- The mapped column names of `Event` (`models.py` lines 20-41). -/
def Event.fieldNames : List String :=
  ["id", "type", "year", "country", "host", "NOC", "start", "end",
   "duration", "disabilities_included", "countries", "events", "sports",
   "participants_m", "participants_f", "participants", "highlights"]

/-- The primary-key column of `Event` (`models.py` line 22). -/
def Event.primaryKey : String := "id"

/-- Read a mapped column of an `Event` by its SQL name. -/
def Event.getField (e : Event) : String → Option ColumnVal
  | "id" => some (.int (some e.id))
  | "type" => some (.str (some e.type_))
  | "year" => some (.int (some e.year))
  | "country" => some (.str (some e.country))
  | "host" => some (.str (some e.host))
  | "NOC" => some (.str (some e.NOC))
  | "start" => some (.str e.start)
  | "end" => some (.str e.end_)
  | "duration" => some (.int e.duration)
  | "disabilities_included" => some (.str e.disabilities_included)
  | "countries" => some (.int e.countries)
  | "events" => some (.int e.events)
  | "sports" => some (.int e.sports)
  | "participants_m" => some (.int e.participants_m)
  | "participants_f" => some (.int e.participants_f)
  | "participants" => some (.int e.participants)
  | "highlights" => some (.str e.highlights)
  | _ => none

/-- `db.select(Event).filter_by(field=value)`: when `field` names a mapped
column, the rows whose column equals the value; otherwise SQLAlchemy raises
`InvalidRequestError` while building the query. -/
def selectEventsFilterBy (rows : List Event) (field : String) (v : ColumnVal) :
    Except PyExc (List Event) :=
  if field ∈ Event.fieldNames then
    .ok (rows.filter (fun e => e.getField field == some v))
  else
    .error .invalidRequestError

/-- The lookup performed by the `PATCH /events/<event_id>` handler
(`routes.py` lines 165-167): filter `Event` by a column named `event_id`. -/
def event_update_lookup (rows : List Event) (event_id : Int) :
    Except PyExc (List Event) :=
  selectEventsFilterBy rows "event_id" (.int (some event_id))

/-! ## Authentication service (`paralympics/helpers.py`, not in the
available sources; modelled from the spec) -/

/-- Modelled from the spec: the process-wide authentication configuration of
the missing `paralympics/helpers.py` — the signing secret ("a process-wide
secret key") and the token lifetime ("a fixed configured duration from
issuance... a configuration parameter"). -/
structure AuthConfig where
  secret : Nat
  lifetime : Nat

/-- Modelled from the spec: a bearer token, "a signed, tamper-evident token
embedding the user identifier and an absolute expiry timestamp". -/
structure Token where
  userId : Int
  exp : Nat
  sig : Nat
deriving DecidableEq

/-- Modelled from the spec: the signature over the token payload, computed
with the process-wide secret; modelled as an injective pairing of secret and
payload, so a signature is valid exactly when it was produced with the same
secret over the same payload. -/
def sign (secret : Nat) (userId : Int) (exp : Nat) : Nat :=
  Nat.pair secret (Nat.pair userId.natAbs exp)

/-- Modelled from the spec: the two failure modes of token decoding — the
expiry-specific error and the signature/malformation error ("fails with
Unauthorized if the signature is invalid or the token is malformed; checks
expiry; fails with Unauthorized (distinct message) if the current time is
past the embedded expiry"). -/
inductive DecodeError where
  | expiredSignature : DecodeError
  | invalidToken : DecodeError
deriving DecidableEq

/-- Modelled from the spec: `encode_auth_token(user_id)` from the missing
`paralympics/helpers.py` — issues a token for the user whose expiry is the
configured lifetime from the issue time, signed with the secret. -/
def encode_auth_token (cfg : AuthConfig) (issuedAt : Nat) (userId : Int) : Token :=
  { userId := userId
    exp := issuedAt + cfg.lifetime
    sig := sign cfg.secret userId (issuedAt + cfg.lifetime) }

/-- Modelled from the spec: token decoding from the missing
`paralympics/helpers.py` — verifies the signature (failing with the
signature-invalid error), then the expiry (failing with the expiry-specific
error once the current time is past the embedded expiry), and otherwise
yields the embedded user identifier. -/
def decode_auth_token (cfg : AuthConfig) (now : Nat) (t : Token) :
    Except DecodeError Int :=
  if t.sig ≠ sign cfg.secret t.userId t.exp then .error .invalidToken
  else if t.exp < now then .error .expiredSignature
  else .ok t.userId

/-- A 401 JSON response carrying a message, as `make_response(msg, 401)`. -/
def unauthorized (message : String) : Response :=
  { status := 401, body := .json (.obj [("message", .str message)]) }

/-- Modelled from the spec: the `token_required` guard from the missing
`paralympics/helpers.py` — extracts the token from the authorization header
(`header`), fails with Unauthorized if it is absent, invalid or expired
(distinct messages), and otherwise runs the wrapped handler with the
embedded user identifier. -/
def token_required (cfg : AuthConfig) (now : Nat) (header : Option Token)
    (handler : Int → Except PyExc (Response × DB)) (db : DB) : Response × DB :=
  match header with
  | none => (unauthorized "Authentication Token is missing", db)
  | some t =>
    match decode_auth_token cfg now t with
    | .error .invalidToken => (unauthorized "Invalid authentication token", db)
    | .error .expiredSignature => (unauthorized "Token has expired", db)
    | .ok userId => runRoute db (handler userId)

/-- Whether the guard lets a request through: the header carries a token the
decoder accepts. -/
def guardPasses (cfg : AuthConfig) (now : Nat) (header : Option Token) : Bool :=
  match header with
  | none => false
  | some t =>
    match decode_auth_token cfg now t with
    | .ok _ => true
    | .error _ => false

/-! ## Route handlers (`paralympics/routes.py`) -/

/-- Marshmallow dump of a nullable text column. -/
def optStr : Option String → Json
  | none => .null
  | some s => .str s

/-- Marshmallow dump of a nullable integer column. -/
def optInt : Option Int → Json
  | none => .null
  | some n => .num n

/-- `event_schema.dump(event)`: the JSON object for one event. -/
def eventToJson (e : Event) : Json :=
  .obj
    [("id", .num e.id), ("type", .str e.type_), ("year", .num e.year),
     ("country", .str e.country), ("host", .str e.host),
     ("NOC", .str e.NOC), ("start", optStr e.start), ("end", optStr e.end_),
     ("duration", optInt e.duration),
     ("disabilities_included", optStr e.disabilities_included),
     ("countries", optInt e.countries), ("events", optInt e.events),
     ("sports", optInt e.sports),
     ("participants_m", optInt e.participants_m),
     ("participants_f", optInt e.participants_f),
     ("participants", optInt e.participants),
     ("highlights", optStr e.highlights)]

/-- A 200 JSON response carrying a message, as returning a dict from a
handler. -/
def okMessage (message : String) : Response :=
  { status := 200, body := .json (.obj [("message", .str message)]) }

/-- `GET /events/<event_id>` (`routes.py` lines 66-77): select the event by
`id` with `scalar_one()` and dump it.  No auth guard and no try/except: on
zero matching rows the `NoResultFound` propagates to the error handlers. -/
def get_event_route (db : DB) (event_id : Int) : Response × DB :=
  runRoute db (do
    let rows ← selectEventsFilterBy db.events "id" (.int (some event_id))
    let ev ← scalarOne rows
    pure ({ status := 200, body := .json (eventToJson ev) }, db))

/-- Commit of a new event row: fails with `IntegrityError` when the primary
key is already taken. -/
def insertEvent (db : DB) (ev : Event) : Except PyExc DB :=
  if db.events.any (fun e => e.id == ev.id) then .error .integrityError
  else .ok { db with events := db.events ++ [ev] }

/-- Commit of a new region row: fails with `IntegrityError` when the primary
key is already taken. -/
def insertRegion (db : DB) (r : Region) : Except PyExc DB :=
  if db.regions.any (fun x => x.NOC == r.NOC) then .error .integrityError
  else .ok { db with regions := db.regions ++ [r] }

/-- Commit of a new user row: fails with `IntegrityError` when the primary
key or one of the UNIQUE columns (`email`, `password_hash`,
`models.py` lines 46-47) collides with a stored row. -/
def insertUser (db : DB) (u : User) : Except PyExc DB :=
  if db.users.any (fun x => x.id == u.id) then .error .integrityError
  else if db.users.any (fun x => x.email == u.email) then .error .integrityError
  else if db.users.any (fun x => x.password_hash == u.password_hash) then
    .error .integrityError
  else .ok { db with users := db.users ++ [u] }

/-- Body of `POST /events` (`routes.py` lines 80-95), after the guard: load
the event from the request JSON, add and commit. -/
def add_event_body (db : DB) (ev : Event) : Except PyExc (Response × DB) := do
  let db2 ← insertEvent db ev
  pure (okMessage ("Event added with id= " ++ toString ev.id), db2)

/-- Body of `POST /regions` (`routes.py` lines 98-113), after the guard. -/
def add_region_body (db : DB) (r : Region) : Except PyExc (Response × DB) := do
  let db2 ← insertRegion db r
  pure (okMessage ("Region added with NOC= " ++ r.NOC), db2)

/-- Body of `DELETE /events/<int:event_id>` (`routes.py` lines 116-129),
after the guard: `scalar_one()` with no try/except, then delete and
commit. -/
def delete_event_body (db : DB) (event_id : Int) :
    Except PyExc (Response × DB) := do
  let rows ← selectEventsFilterBy db.events "id" (.int (some event_id))
  let ev ← scalarOne rows
  pure (okMessage ("Event " ++ toString event_id ++ " deleted."),
    { db with events := db.events.filter (fun e => !(e == ev)) })

/-- Body of `DELETE /regions/<noc_code>` (`routes.py` lines 132-153), after
the guard: any `SQLAlchemyError` from the lookup is caught and turned into a
404 with a message. -/
def delete_region_body (db : DB) (noc_code : String) :
    Except PyExc (Response × DB) :=
  match scalarOne (db.regions.filter (fun r => r.NOC == noc_code)) with
  | .ok region =>
    .ok (okMessage ("Region " ++ noc_code ++ " deleted."),
      { db with regions := db.regions.filter (fun r => !(r == region)) })
  | .error _ =>
    .ok ({ status := 404
           body := .json (.obj
             [("message", .str ("Region " ++ noc_code ++ " not found"))]) }, db)

/-- Body of `PATCH /events/<event_id>` (`routes.py` lines 156-177), after
the guard: look the event up by a column named `event_id`, then hand the
result to the rest of the handler (marshmallow load, commit), kept abstract
as `k` because the lookup raises before it can ever run. -/
def event_update_body (db : DB) (event_id : Int)
    (k : Option Event → Except PyExc (Response × DB)) :
    Except PyExc (Response × DB) := do
  let rows ← event_update_lookup db.events event_id
  let existing ← scalarOneOrNone rows
  k existing

/-- Body of `PATCH /regions/<noc_code>` (`routes.py` lines 180-204), after
the guard: look the region up by `NOC`, then hand the result to the rest of
the handler (marshmallow load, commit), kept abstract as `k`. -/
def region_update_body (db : DB) (noc_code : String)
    (k : Option Region → Except PyExc (Response × DB)) :
    Except PyExc (Response × DB) := do
  let existing ← scalarOneOrNone (db.regions.filter (fun r => r.NOC == noc_code))
  k existing

/-- The next autoincrement value for the users primary key. -/
def nextUserId (db : DB) : Int :=
  (db.users.map User.id).foldr max 0 + 1

/-- Body of `POST /register` (`routes.py` lines 249-287), after the guard:
look the email up with `scalar_one_or_none()`; if a user exists answer 409;
otherwise create the user with the hashed password and commit, answering 201
on success and 500 if anything in the try block fails. -/
def register_body (db : DB) (salt email password : String) :
    Except PyExc (Response × DB) := do
  let existing ← scalarOneOrNone (db.users.filter (fun u => u.email == email))
  match existing with
  | some _ =>
    pure ({ status := 409
            body := .json (.obj
              [("message", .str "User already exists. Please Log in.")]) }, db)
  | none =>
    let u : User :=
      { id := nextUserId db, email := email
        password_hash := generate_password_hash salt password }
    match insertUser db u with
    | .ok db2 =>
      pure ({ status := 201
              body := .json (.obj
                [("message", .str "Successfully registered.")]) }, db2)
    | .error _ =>
      pure ({ status := 500
              body := .json (.obj
                [("message", .str "An error occurred. Please try again.")]) },
        db)

/-- The JSON body of a login or register request: `auth.get("email")` /
`auth.get("password")`. -/
structure AuthBody where
  email : Option String := none
  password : Option String := none

/-- Python truthiness of `auth.get(field)`: present and non-empty. -/
def presentNonEmpty : Option String → Bool
  | none => false
  | some s => !s.isEmpty

/-- The serialised token string returned to the client. -/
def tokenString (t : Token) : String :=
  toString t.userId ++ "." ++ toString t.exp ++ "." ++ toString t.sig

/-- Body of `POST /login` (`routes.py` lines 290-320), after the guard:
401 if the body or either field is missing or empty; then look the user up
by email; 401 with one shared generic message if there is no user or the
password check fails; otherwise 201 with the user id and a fresh token. -/
def login_body (cfg : AuthConfig) (now : Nat) (db : DB)
    (auth : Option AuthBody) : Except PyExc (Response × DB) :=
  match auth with
  | none => pure (unauthorized "Missing email or password", db)
  | some a =>
    if !(presentNonEmpty a.email) || !(presentNonEmpty a.password) then
      pure (unauthorized "Missing email or password", db)
    else do
      let email := a.email.getD ""
      let user ← scalarOneOrNone (db.users.filter (fun u => u.email == email))
      match user with
      | none => pure (unauthorized "Incorrect email or password.", db)
      | some u =>
        if !(u.check_password (a.password.getD "")) then
          pure (unauthorized "Incorrect email or password.", db)
        else
          pure ({ status := 201
                  body := .json (.obj
                    [("user_id", .num u.id),
                     ("token",
                      .str (tokenString (encode_auth_token cfg now u.id)))]) },
            db)

/-! ### The guarded routes: every write operation, and also `/register` and
`/login`, is wrapped in `@token_required` (`routes.py` lines 80-81, 98-99,
116-117, 132-133, 156-157, 180-181, 249-250, 290-291). -/

/-- `POST /events`. -/
def add_event_route (cfg : AuthConfig) (now : Nat) (header : Option Token)
    (db : DB) (ev : Event) : Response × DB :=
  token_required cfg now header (fun _uid => add_event_body db ev) db

/-- `POST /regions`. -/
def add_region_route (cfg : AuthConfig) (now : Nat) (header : Option Token)
    (db : DB) (r : Region) : Response × DB :=
  token_required cfg now header (fun _uid => add_region_body db r) db

/-- `DELETE /events/<int:event_id>`. -/
def delete_event_route (cfg : AuthConfig) (now : Nat) (header : Option Token)
    (db : DB) (event_id : Int) : Response × DB :=
  token_required cfg now header (fun _uid => delete_event_body db event_id) db

/-- `DELETE /regions/<noc_code>`. -/
def delete_region_route (cfg : AuthConfig) (now : Nat) (header : Option Token)
    (db : DB) (noc_code : String) : Response × DB :=
  token_required cfg now header (fun _uid => delete_region_body db noc_code) db

/-- `PATCH /events/<event_id>`. -/
def event_update_route (cfg : AuthConfig) (now : Nat) (header : Option Token)
    (db : DB) (event_id : Int)
    (k : Option Event → Except PyExc (Response × DB)) : Response × DB :=
  token_required cfg now header (fun _uid => event_update_body db event_id k) db

/-- `PATCH /regions/<noc_code>`. -/
def region_update_route (cfg : AuthConfig) (now : Nat) (header : Option Token)
    (db : DB) (noc_code : String)
    (k : Option Region → Except PyExc (Response × DB)) : Response × DB :=
  token_required cfg now header (fun _uid => region_update_body db noc_code k) db

/-- `POST /register`. -/
def register_route (cfg : AuthConfig) (now : Nat) (header : Option Token)
    (db : DB) (salt email password : String) : Response × DB :=
  token_required cfg now header
    (fun _uid => register_body db salt email password) db

/-- `POST /login`. -/
def login_route (cfg : AuthConfig) (now : Nat) (header : Option Token)
    (db : DB) (auth : Option AuthBody) : Response × DB :=
  token_required cfg now header (fun _uid => login_body cfg now db auth) db

/-- Whether a response body is JSON (content type `application/json`). -/
def Response.isJson (r : Response) : Bool :=
  match r.body with
  | .json _ => true
  | .html _ => false

/-- The JSON body of a response, when it has one. -/
def Response.jsonBody (r : Response) : Option Json :=
  match r.body with
  | .json j => some j
  | .html _ => none

/-- Whether a JSON value has the `{code, name, description}` shape produced
by the registered `HTTPException` handler. -/
def Json.isCodeNameDescription : Json → Bool
  | .obj [("code", .num _), ("name", .str _), ("description", .str _)] => true
  | _ => false

/-- Whether a raised exception has no registered handler more specific than
the generic `Exception` handler (neither a werkzeug `HTTPException` nor a
marshmallow `ValidationError`). -/
def PyExc.unhandled : PyExc → Bool
  | .httpExc _ => false
  | .validationError _ => false
  | _ => true

/-- The event row of the `new_event` test fixture (`tests/conftest.py`
lines 64-85), used as concrete data. -/
def sampleEvent : Event :=
  { id := 33, type_ := "summer", year := 1960, country := "Italy"
    host := "Rome", NOC := "ITA", start := some "18/09/1960"
    end_ := some "25/09/1960", duration := some 7
    disabilities_included := some "Spinal injury", countries := some 23
    events := some 113, sports := some 8, participants_m := none
    participants_f := none, participants := some 209
    highlights := some "First Games held in same venues as Olympic Games" }

/-- A one-event database holding `sampleEvent`. -/
def sampleDB : DB := { regions := [], events := [sampleEvent], users := [] }

/-- The empty database. -/
def emptyDB : DB := { regions := [], events := [], users := [] }

/-- Whether a login request body fails the presence check of `routes.py`
lines 299-304: body absent, or email or password missing or empty. -/
def loginFieldsMissing (auth : Option AuthBody) : Bool :=
  match auth with
  | none => true
  | some a => !(presentNonEmpty a.email) || !(presentNonEmpty a.password)

/-! ## Supporting lemmas -/

/-- For a fixed salt, the idealised digest determines the password. -/
theorem hashDigest_inj (salt p q : String) (h : hashDigest salt p = hashDigest salt q) :
    p = q := by
  have hd : ((salt ++ ":") ++ p).data = ((salt ++ ":") ++ q).data :=
    congrArg String.data h
  have hd2 : (salt ++ ":").data ++ p.data = (salt ++ ":").data ++ q.data := hd
  exact String.ext (List.append_cancel_left hd2)

/-! ## Claims -/

/-- C8: for every password P, `check_password P` on a user whose hash was set
by `set_password P` returns true, and `check_password Q` for any `Q ≠ P`
returns false (`models.py` lines 52-56; werkzeug digest idealised as
collision-free). -/
theorem C8_password_roundtrip (u : User) (salt P Q : String) (h : Q ≠ P) :
    (u.set_password salt P).check_password P = true ∧
    (u.set_password salt P).check_password Q = false := by
  refine ⟨?_, ?_⟩
  · simp [User.set_password, User.check_password, check_password_hash,
      generate_password_hash]
  · simp only [User.set_password, User.check_password, check_password_hash,
      generate_password_hash]
    rw [beq_eq_false_iff_ne]
    intro hEq
    exact h (hashDigest_inj salt P Q hEq).symm

/-- Witness for C8 at a concrete user, salt and password pair. -/
theorem C8_witness :
    (User.set_password ⟨1, "a@b.com", ⟨"x", "y"⟩⟩ "salt1" "Xy12345!").check_password "Xy12345!" = true ∧
    (User.set_password ⟨1, "a@b.com", ⟨"x", "y"⟩⟩ "salt1" "Xy12345!").check_password "Zz99999?" = false :=
  C8_password_roundtrip ⟨1, "a@b.com", ⟨"x", "y"⟩⟩ "salt1" "Xy12345!" "Zz99999?" (by decide)

/-- C9: decoding a token issued for a user before its expiry yields that
user; after expiry it fails with the expiry-specific error, which is a
different error from the signature-invalid one (modelled from the spec,
`paralympics/helpers.py` not being among the sources). -/
theorem C9_token_roundtrip (cfg : AuthConfig) (userId : Int) (issuedAt now : Nat) :
    (now ≤ issuedAt + cfg.lifetime →
      decode_auth_token cfg now (encode_auth_token cfg issuedAt userId) = .ok userId) ∧
    (issuedAt + cfg.lifetime < now →
      decode_auth_token cfg now (encode_auth_token cfg issuedAt userId) =
        .error .expiredSignature) ∧
    DecodeError.expiredSignature ≠ DecodeError.invalidToken := by
  refine ⟨?_, ?_, by decide⟩
  · intro h
    simp [decode_auth_token, encode_auth_token, Nat.not_lt.mpr h]
  · intro h
    simp [decode_auth_token, encode_auth_token, h]

/-- Witness for C9: a token with lifetime 5 issued at time 3 decodes to its
user at time 8 and is expired at time 9. -/
theorem C9_witness :
    decode_auth_token ⟨7, 5⟩ 8 (encode_auth_token ⟨7, 5⟩ 3 42) = .ok 42 ∧
    decode_auth_token ⟨7, 5⟩ 9 (encode_auth_token ⟨7, 5⟩ 3 42) =
      .error .expiredSignature :=
  ⟨(C9_token_roundtrip ⟨7, 5⟩ 42 3 8).1 (by decide),
   (C9_token_roundtrip ⟨7, 5⟩ 42 3 9).2.1 (by decide)⟩

/-- C10: the users table declares `password_hash` unique
(`models.py` line 47): committing a user whose hash equals a stored hash
fails with `IntegrityError`, and a successful commit preserves pairwise
distinctness of the stored hashes. -/
theorem C10_password_hash_unique (db : DB) (u : User) (db2 : DB) :
    "password_hash" ∈ User.uniqueColumns ∧
    (∀ w, w ∈ db.users → w.password_hash = u.password_hash →
      insertUser db u = .error .integrityError) ∧
    (db.users.Pairwise (fun a b => a.password_hash ≠ b.password_hash) →
      insertUser db u = .ok db2 →
      db2.users.Pairwise (fun a b => a.password_hash ≠ b.password_hash)) := by
  refine ⟨by decide, ?_, ?_⟩
  · intro w hw hhash
    have hany : db.users.any (fun x => x.password_hash == u.password_hash) = true := by
      exact List.any_eq_true.mpr ⟨w, hw, by simp [hhash]⟩
    simp only [insertUser]
    split
    · rfl
    · split
      · rfl
      · simp [hany]
  · intro hpw hins
    simp only [insertUser] at hins
    split at hins
    · exact absurd hins (by simp)
    · split at hins
      · exact absurd hins (by simp)
      · split at hins
        · exact absurd hins (by simp)
        · next h1 h2 h3 =>
          have hdb2 : db2 = { db with users := db.users ++ [u] } := by
            cases hins; rfl
          rw [hdb2]
          simp only
          rw [List.pairwise_append]
          refine ⟨hpw, by simp, ?_⟩
          intro a ha b hb
          have hb1 : b = u := by simpa using hb
          rw [hb1]
          intro hEq
          have : db.users.any (fun x => x.password_hash == u.password_hash) = true :=
            List.any_eq_true.mpr ⟨a, ha, by simp [hEq]⟩
          exact h3 this

/-- Witness for C10: inserting a user with a fresh hash succeeds and keeps the
hashes distinct; inserting a user whose hash equals the stored one fails. -/
theorem C10_witness :
    insertUser ⟨[], [], [⟨1, "a@x.com", generate_password_hash "s" "pw"⟩]⟩
      ⟨2, "b@x.com", generate_password_hash "s" "pw"⟩ = .error .integrityError ∧
    (⟨[], [], [⟨1, "a@x.com", generate_password_hash "s" "pw"⟩,
       ⟨2, "b@x.com", generate_password_hash "t" "pw"⟩]⟩ : DB).users.Pairwise
      (fun a b => a.password_hash ≠ b.password_hash) :=
  ⟨(C10_password_hash_unique ⟨[], [], [⟨1, "a@x.com", generate_password_hash "s" "pw"⟩]⟩
      ⟨2, "b@x.com", generate_password_hash "s" "pw"⟩
      ⟨[], [], []⟩).2.1 ⟨1, "a@x.com", generate_password_hash "s" "pw"⟩
      (by simp) rfl,
   (C10_password_hash_unique ⟨[], [], [⟨1, "a@x.com", generate_password_hash "s" "pw"⟩]⟩
      ⟨2, "b@x.com", generate_password_hash "t" "pw"⟩
      ⟨[], [], [⟨1, "a@x.com", generate_password_hash "s" "pw"⟩,
        ⟨2, "b@x.com", generate_password_hash "t" "pw"⟩]⟩).2.2
      (by simp [generate_password_hash, hashDigest]) rfl⟩

/-- Filtering events on the `id` column is filtering on the `id` field. -/
theorem selectEventsFilterBy_id (rows : List Event) (n : Int) :
    selectEventsFilterBy rows "id" (.int (some n)) =
      .ok (rows.filter (fun e => e.id == n)) := by
  simp only [selectEventsFilterBy, if_pos (by decide : "id" ∈ Event.fieldNames)]
  congr 1
  apply List.filter_congr
  intro e _
  show (Event.getField e "id" == some (ColumnVal.int (some n))) = (e.id == n)
  by_cases h : e.id = n
  · simp [Event.getField, h]
  · simp [Event.getField, h]

/-- C3: the `PATCH /events/<event_id>` lookup filters `Event` on a column
named `event_id`, which is not among the mapped columns of `Event` (whose
primary key is `id`), so the lookup always raises `InvalidRequestError` and
never selects the intended row (`routes.py` lines 165-167,
`models.py` lines 20-41). -/
theorem C3_event_update_wrong_column :
    Event.fieldNames.contains "event_id" = false ∧
    Event.primaryKey = "id" ∧
    ("event_id" == "id") = false ∧
    ∀ (rows : List Event) (event_id : Int),
      event_update_lookup rows event_id = .error .invalidRequestError := by
  refine ⟨by decide, rfl, by decide, ?_⟩
  intro rows n
  simp only [event_update_lookup, selectEventsFilterBy]
  rw [if_neg (by decide)]

/-- C4: every raised exception is answered with a JSON body, and every
exception with no handler of its own is answered with the generic 500
response of shape `{code, name, description}` (via the fallback: the
registered `Exception` handler itself fails on non-HTTP exceptions and the
resulting `InternalServerError` is formatted by the `HTTPException`
handler). -/
theorem C4_error_responses (e : PyExc) :
    (handleRaised e).isJson = true ∧
    (e.unhandled = true →
      handleRaised e = handle_exception 500 ∧
      (handleRaised e).status = 500 ∧
      (handleRaised e).jsonBody.map Json.isCodeNameDescription = some true) := by
  cases e with
  | httpExc code =>
    refine ⟨?_, fun h => by simp [PyExc.unhandled] at h⟩
    simp only [handleRaised]
    split
    · rfl
    · rfl
    · next heq => exact absurd heq (by simp)
    · next h1 h2 h3 => exact absurd rfl (h2 code)
  | validationError messages =>
    exact ⟨rfl, fun h => by simp [PyExc.unhandled] at h⟩
  | noResultFound => exact ⟨rfl, fun _ => ⟨rfl, rfl, rfl⟩⟩
  | multipleResultsFound => exact ⟨rfl, fun _ => ⟨rfl, rfl, rfl⟩⟩
  | invalidRequestError => exact ⟨rfl, fun _ => ⟨rfl, rfl, rfl⟩⟩
  | integrityError => exact ⟨rfl, fun _ => ⟨rfl, rfl, rfl⟩⟩
  | attributeError => exact ⟨rfl, fun _ => ⟨rfl, rfl, rfl⟩⟩

/-- Witness for C4 at the concrete unhandled exception `NoResultFound`. -/
theorem C4_witness :
    (handleRaised .noResultFound).isJson = true ∧
    handleRaised .noResultFound = handle_exception 500 ∧
    (handleRaised .noResultFound).status = 500 ∧
    (handleRaised .noResultFound).jsonBody.map Json.isCodeNameDescription =
      some true :=
  ⟨(C4_error_responses .noResultFound).1, (C4_error_responses .noResultFound).2 rfl⟩

/-- C1 counterexample: on the empty database no event has id 1, yet
GET /events/1 answers 500, not the 404 the claim states (the
`NoResultFound` raised by `scalar_one()` is a non-HTTP exception). -/
theorem C1_counterexample :
    (get_event_route emptyDB 1).1.status = 500 ∧
    ((get_event_route emptyDB 1).1.status == 404) = false := by
  exact ⟨rfl, rfl⟩

/-- C1 amended: for GET /events/{id}, when no event has the id the response
is the generic 500 JSON error (the `NoResultFound` from `scalar_one()`
escalates through the failing `Exception` handler to the `HTTPException`
handler); when exactly one event has the id the response is 200 with the
event object (`routes.py` lines 66-77 and 207-239). -/
theorem C1_get_event (db : DB) (event_id : Int) :
    (db.events.filter (fun e => e.id == event_id) = [] →
      get_event_route db event_id = (handle_exception 500, db)) ∧
    (∀ ev, db.events.filter (fun e => e.id == event_id) = [ev] →
      get_event_route db event_id =
        ({ status := 200, body := .json (eventToJson ev) }, db)) := by
  constructor
  · intro h
    simp [get_event_route, selectEventsFilterBy_id, h, scalarOne, runRoute,
      handleRaised, handle_exception_generic, Bind.bind, Except.bind,
      Functor.map, Except.map]
  · intro ev h
    simp [get_event_route, selectEventsFilterBy_id, h, scalarOne, runRoute,
      Bind.bind, Except.bind, Functor.map, Except.map, Pure.pure, Except.pure]

/-- Witness for C1 at the fixture event (id 33) and at an absent id. -/
theorem C1_witness :
    get_event_route sampleDB 33 =
      ({ status := 200, body := .json (eventToJson sampleEvent) }, sampleDB) ∧
    get_event_route sampleDB 99 = (handle_exception 500, sampleDB) :=
  ⟨(C1_get_event sampleDB 33).2 sampleEvent rfl,
   (C1_get_event sampleDB 99).1 rfl⟩

/-- C2: every protected operation (POST/PATCH/DELETE on regions and events,
and also POST /register and POST /login) is wrapped in the `token_required`
guard (`routes.py` lines 80-81, 98-99, 116-117, 132-133, 156-157, 180-181,
249-250, 290-291; guard modelled from the spec): when the header carries no
token the decoder accepts, the result is the same for every wrapped handler,
its status is 401 and the database is unchanged — the wrapped operation
never executes. -/
theorem C2_token_guard (cfg : AuthConfig) (now : Nat) (header : Option Token)
    (db : DB) (h : guardPasses cfg now header = false) :
    (∀ f g : Int → Except PyExc (Response × DB),
      token_required cfg now header f db = token_required cfg now header g db) ∧
    (∀ f : Int → Except PyExc (Response × DB),
      (token_required cfg now header f db).1.status = 401 ∧
      (token_required cfg now header f db).2 = db) ∧
    (∀ ev, (add_event_route cfg now header db ev).1.status = 401 ∧
      (add_event_route cfg now header db ev).2 = db) ∧
    (∀ r, (add_region_route cfg now header db r).1.status = 401 ∧
      (add_region_route cfg now header db r).2 = db) ∧
    (∀ n, (delete_event_route cfg now header db n).1.status = 401 ∧
      (delete_event_route cfg now header db n).2 = db) ∧
    (∀ s, (delete_region_route cfg now header db s).1.status = 401 ∧
      (delete_region_route cfg now header db s).2 = db) ∧
    (∀ n k, (event_update_route cfg now header db n k).1.status = 401 ∧
      (event_update_route cfg now header db n k).2 = db) ∧
    (∀ s k, (region_update_route cfg now header db s k).1.status = 401 ∧
      (region_update_route cfg now header db s k).2 = db) ∧
    (∀ salt email password,
      (register_route cfg now header db salt email password).1.status = 401 ∧
      (register_route cfg now header db salt email password).2 = db) ∧
    (∀ auth, (login_route cfg now header db auth).1.status = 401 ∧
      (login_route cfg now header db auth).2 = db) := by
  have main : ∀ f : Int → Except PyExc (Response × DB),
      (token_required cfg now header f db).1.status = 401 ∧
      (token_required cfg now header f db).2 = db ∧
      ∀ g, token_required cfg now header f db =
        token_required cfg now header g db := by
    intro f
    cases header with
    | none => exact ⟨rfl, rfl, fun g => rfl⟩
    | some t =>
      cases hdec : decode_auth_token cfg now t with
      | ok uid => simp [guardPasses, hdec] at h
      | error e =>
        cases e with
        | invalidToken =>
          refine ⟨?_, ?_, fun g => ?_⟩ <;> simp [token_required, hdec, unauthorized]
        | expiredSignature =>
          refine ⟨?_, ?_, fun g => ?_⟩ <;> simp [token_required, hdec, unauthorized]
  exact ⟨fun f g => (main f).2.2 g,
    fun f => ⟨(main f).1, (main f).2.1⟩,
    fun ev => ⟨(main _).1, (main _).2.1⟩,
    fun r => ⟨(main _).1, (main _).2.1⟩,
    fun n => ⟨(main _).1, (main _).2.1⟩,
    fun s => ⟨(main _).1, (main _).2.1⟩,
    fun n k => ⟨(main _).1, (main _).2.1⟩,
    fun s k => ⟨(main _).1, (main _).2.1⟩,
    fun salt email password => ⟨(main _).1, (main _).2.1⟩,
    fun auth => ⟨(main _).1, (main _).2.1⟩⟩

/-- Witness for C2: a missing header blocks `/register`, an expired token
blocks `/login`, a token with a wrong signature blocks `POST /events`. -/
theorem C2_witness :
    (register_route ⟨7, 5⟩ 0 none emptyDB "s" "a@b.com" "pw").1.status = 401 ∧
    (register_route ⟨7, 5⟩ 0 none emptyDB "s" "a@b.com" "pw").2 = emptyDB ∧
    (login_route ⟨7, 5⟩ 9 (some (encode_auth_token ⟨7, 5⟩ 0 1)) emptyDB
      none).1.status = 401 ∧
    (add_event_route ⟨7, 5⟩ 0 (some ⟨1, 99, 0⟩) emptyDB sampleEvent).1.status = 401 := by
  have h1 := C2_token_guard ⟨7, 5⟩ 0 none emptyDB rfl
  have h2 := C2_token_guard ⟨7, 5⟩ 9 (some (encode_auth_token ⟨7, 5⟩ 0 1)) emptyDB
    (by decide)
  have h3 := C2_token_guard ⟨7, 5⟩ 0 (some ⟨1, 99, 0⟩) emptyDB (by decide)
  exact ⟨(h1.2.2.2.2.2.2.2.2.1 "s" "a@b.com" "pw").1,
    (h1.2.2.2.2.2.2.2.2.1 "s" "a@b.com" "pw").2,
    (h2.2.2.2.2.2.2.2.2.2 none).1,
    (h3.2.2.1 sampleEvent).1⟩

/-- C5: a login whose email matches no user and a login whose email matches
a user but whose password is wrong receive identical responses, the shared
generic 401 (`routes.py` lines 306-314): an observer cannot tell whether the
email exists. -/
theorem C5_login_generic_failure (cfg : AuthConfig) (now : Nat)
    (header : Option Token) (db : DB) (a1 a2 : AuthBody) (u2 : User)
    (h1e : presentNonEmpty a1.email = true)
    (h1p : presentNonEmpty a1.password = true)
    (h2e : presentNonEmpty a2.email = true)
    (h2p : presentNonEmpty a2.password = true)
    (hnone : db.users.filter (fun u => u.email == a1.email.getD "") = [])
    (hsome : db.users.filter (fun u => u.email == a2.email.getD "") = [u2])
    (hwrong : u2.check_password (a2.password.getD "") = false) :
    login_route cfg now header db (some a1) =
      login_route cfg now header db (some a2) ∧
    (guardPasses cfg now header = true →
      (login_route cfg now header db (some a1)).1 =
        unauthorized "Incorrect email or password.") := by
  have hb1 : login_body cfg now db (some a1) =
      .ok (unauthorized "Incorrect email or password.", db) := by
    simp [login_body, h1e, h1p, hnone, scalarOneOrNone, Bind.bind, Except.bind,
      Pure.pure, Except.pure]
  have hb2 : login_body cfg now db (some a2) =
      .ok (unauthorized "Incorrect email or password.", db) := by
    simp [login_body, h2e, h2p, hsome, hwrong, scalarOneOrNone, Bind.bind,
      Except.bind, Pure.pure, Except.pure]
  constructor
  · cases header with
    | none => rfl
    | some t =>
      cases hdec : decode_auth_token cfg now t with
      | ok uid => simp [login_route, token_required, hdec, runRoute, hb1, hb2]
      | error e => cases e <;> simp [login_route, token_required, hdec]
  · intro hg
    cases header with
    | none => simp [guardPasses] at hg
    | some t =>
      cases hdec : decode_auth_token cfg now t with
      | ok uid => simp [login_route, token_required, hdec, runRoute, hb1]
      | error e => simp [guardPasses, hdec] at hg

/-- Witness for C5: against a store holding one user, an unknown email and a
known email with a wrong password are indistinguishable; with a valid token
the shared response is the generic 401. -/
theorem C5_witness :
    login_route ⟨7, 5⟩ 0 none
      ⟨[], [], [⟨1, "a@b.com", generate_password_hash "s" "pw"⟩]⟩
      (some ⟨some "no@x.com", some "whatever"⟩) =
    login_route ⟨7, 5⟩ 0 none
      ⟨[], [], [⟨1, "a@b.com", generate_password_hash "s" "pw"⟩]⟩
      (some ⟨some "a@b.com", some "wrong"⟩) ∧
    (login_route ⟨7, 5⟩ 0 (some (encode_auth_token ⟨7, 5⟩ 0 1))
      ⟨[], [], [⟨1, "a@b.com", generate_password_hash "s" "pw"⟩]⟩
      (some ⟨some "no@x.com", some "whatever"⟩)).1 =
      unauthorized "Incorrect email or password." :=
  ⟨(C5_login_generic_failure ⟨7, 5⟩ 0 none
      ⟨[], [], [⟨1, "a@b.com", generate_password_hash "s" "pw"⟩]⟩
      ⟨some "no@x.com", some "whatever"⟩ ⟨some "a@b.com", some "wrong"⟩
      ⟨1, "a@b.com", generate_password_hash "s" "pw"⟩
      rfl rfl rfl rfl rfl rfl rfl).1,
   (C5_login_generic_failure ⟨7, 5⟩ 0 (some (encode_auth_token ⟨7, 5⟩ 0 1))
      ⟨[], [], [⟨1, "a@b.com", generate_password_hash "s" "pw"⟩]⟩
      ⟨some "no@x.com", some "whatever"⟩ ⟨some "a@b.com", some "wrong"⟩
      ⟨1, "a@b.com", generate_password_hash "s" "pw"⟩
      rfl rfl rfl rfl rfl rfl rfl).2 (by decide)⟩

/-- C6: for a register request that reaches the handler (the guard accepts
the token): an existing email answers 409; a new email whose commit succeeds
answers 201 with the success message and stores the user; a new email whose
commit fails answers 500 (`routes.py` lines 249-287). -/
theorem C6_register (cfg : AuthConfig) (now : Nat) (header : Option Token)
    (db : DB) (salt email password : String)
    (hg : guardPasses cfg now header = true) :
    (∀ u, db.users.filter (fun x => x.email == email) = [u] →
      register_route cfg now header db salt email password =
        ({ status := 409
           body := .json (.obj
             [("message", .str "User already exists. Please Log in.")]) }, db)) ∧
    (∀ db2, db.users.filter (fun x => x.email == email) = [] →
      insertUser db
        { id := nextUserId db, email := email
          password_hash := generate_password_hash salt password } = .ok db2 →
      register_route cfg now header db salt email password =
        ({ status := 201
           body := .json (.obj
             [("message", .str "Successfully registered.")]) }, db2)) ∧
    (db.users.filter (fun x => x.email == email) = [] →
      insertUser db
        { id := nextUserId db, email := email
          password_hash := generate_password_hash salt password } =
          .error .integrityError →
      register_route cfg now header db salt email password =
        ({ status := 500
           body := .json (.obj
             [("message", .str "An error occurred. Please try again.")]) }, db)) := by
  obtain ⟨t, ht⟩ : ∃ t, header = some t := by
    cases header with
    | none => simp [guardPasses] at hg
    | some t => exact ⟨t, rfl⟩
  subst ht
  cases hdec : decode_auth_token cfg now t with
  | error e => simp [guardPasses, hdec] at hg
  | ok uid =>
    have hroute : register_route cfg now (some t) db salt email password =
        runRoute db (register_body db salt email password) := by
      simp [register_route, token_required, hdec]
    refine ⟨?_, ?_, ?_⟩
    · intro u hu
      rw [hroute]
      simp [register_body, hu, scalarOneOrNone, runRoute, Bind.bind,
        Except.bind, Pure.pure, Except.pure]
    · intro db2 hmail hins
      rw [hroute]
      simp [register_body, hmail, hins, scalarOneOrNone, runRoute, Bind.bind,
        Except.bind, Pure.pure, Except.pure]
    · intro hmail hins
      rw [hroute]
      simp [register_body, hmail, hins, scalarOneOrNone, runRoute, Bind.bind,
        Except.bind, Pure.pure, Except.pure]

/-- Witness for C6: with a valid token, registering a fresh email answers
201 and stores the user; re-registering the same email answers 409; a fresh
email whose hash collides with a stored hash (the unique `password_hash`
column) answers 500. -/
theorem C6_witness :
    register_route ⟨7, 5⟩ 0 (some (encode_auth_token ⟨7, 5⟩ 0 1)) emptyDB
      "s" "a@b.com" "Xy12345!" =
      ({ status := 201
         body := .json (.obj
           [("message", .str "Successfully registered.")]) },
       ⟨[], [], [⟨1, "a@b.com", generate_password_hash "s" "Xy12345!"⟩]⟩) ∧
    register_route ⟨7, 5⟩ 0 (some (encode_auth_token ⟨7, 5⟩ 0 1))
      ⟨[], [], [⟨1, "a@b.com", generate_password_hash "s" "Xy12345!"⟩]⟩
      "t" "a@b.com" "Xy12345!" =
      ({ status := 409
         body := .json (.obj
           [("message", .str "User already exists. Please Log in.")]) },
       ⟨[], [], [⟨1, "a@b.com", generate_password_hash "s" "Xy12345!"⟩]⟩) ∧
    register_route ⟨7, 5⟩ 0 (some (encode_auth_token ⟨7, 5⟩ 0 1))
      ⟨[], [], [⟨1, "other@x.com", generate_password_hash "s" "Xy12345!"⟩]⟩
      "s" "a@b.com" "Xy12345!" =
      ({ status := 500
         body := .json (.obj
           [("message", .str "An error occurred. Please try again.")]) },
       ⟨[], [], [⟨1, "other@x.com", generate_password_hash "s" "Xy12345!"⟩]⟩) :=
  ⟨(C6_register ⟨7, 5⟩ 0 (some (encode_auth_token ⟨7, 5⟩ 0 1)) emptyDB
      "s" "a@b.com" "Xy12345!" (by decide)).2.1
      ⟨[], [], [⟨1, "a@b.com", generate_password_hash "s" "Xy12345!"⟩]⟩ rfl rfl,
   (C6_register ⟨7, 5⟩ 0 (some (encode_auth_token ⟨7, 5⟩ 0 1))
      ⟨[], [], [⟨1, "a@b.com", generate_password_hash "s" "Xy12345!"⟩]⟩
      "t" "a@b.com" "Xy12345!" (by decide)).1
      ⟨1, "a@b.com", generate_password_hash "s" "Xy12345!"⟩ rfl,
   (C6_register ⟨7, 5⟩ 0 (some (encode_auth_token ⟨7, 5⟩ 0 1))
      ⟨[], [], [⟨1, "other@x.com", generate_password_hash "s" "Xy12345!"⟩]⟩
      "s" "a@b.com" "Xy12345!" (by decide)).2.2 rfl rfl⟩

/-- C7: a login request whose JSON body is absent, or whose email or
password is missing or empty, is answered 401 (never 400), and the response
does not depend on the stored users — the handler returns before any user
lookup (`routes.py` lines 299-304). -/
theorem C7_login_missing_fields (cfg : AuthConfig) (now : Nat)
    (header : Option Token) (db db2 : DB) (auth : Option AuthBody)
    (h : loginFieldsMissing auth = true) :
    (login_route cfg now header db auth).1.status = 401 ∧
    (login_route cfg now header db auth).1 =
      (login_route cfg now header db2 auth).1 := by
  have hbody : ∀ d : DB, login_body cfg now d auth =
      .ok (unauthorized "Missing email or password", d) := by
    intro d
    cases auth with
    | none => rfl
    | some a =>
      simp only [loginFieldsMissing] at h
      simp [login_body, h, Pure.pure, Except.pure]
  cases header with
  | none => exact ⟨rfl, rfl⟩
  | some t =>
    cases hdec : decode_auth_token cfg now t with
    | ok uid =>
      simp [login_route, token_required, hdec, runRoute, hbody, unauthorized]
    | error e =>
      cases e <;> simp [login_route, token_required, hdec, unauthorized]

/-- Witness for C7: an absent body without a token, and an empty email field
with a valid token, both answer 401 with a database-independent response. -/
theorem C7_witness :
    (login_route ⟨7, 5⟩ 0 none sampleDB none).1.status = 401 ∧
    (login_route ⟨7, 5⟩ 0 (some (encode_auth_token ⟨7, 5⟩ 0 1)) sampleDB
      (some ⟨some "", some "pw"⟩)).1.status = 401 ∧
    (login_route ⟨7, 5⟩ 0 (some (encode_auth_token ⟨7, 5⟩ 0 1)) sampleDB
      (some ⟨some "", some "pw"⟩)).1 =
      (login_route ⟨7, 5⟩ 0 (some (encode_auth_token ⟨7, 5⟩ 0 1)) emptyDB
        (some ⟨some "", some "pw"⟩)).1 :=
  ⟨(C7_login_missing_fields ⟨7, 5⟩ 0 none sampleDB emptyDB none rfl).1,
   (C7_login_missing_fields ⟨7, 5⟩ 0 (some (encode_auth_token ⟨7, 5⟩ 0 1))
      sampleDB emptyDB (some ⟨some "", some "pw"⟩) rfl).1,
   (C7_login_missing_fields ⟨7, 5⟩ 0 (some (encode_auth_token ⟨7, 5⟩ 0 1))
      sampleDB emptyDB (some ⟨some "", some "pw"⟩) rfl).2⟩
